import Mathlib

/-!
Shallow embedding of the school-management API core
(controllers/schoolController.js together with the utils module holding
calculateDistance, validateSchoolData and validateCoordinates).

JavaScript numbers are modelled exactly: finite values as rationals, plus
NaN and the two infinities as separate constructors; floating-point
rounding is abstracted away (all claims here concern comparisons, parsing
and control flow, not binary rounding).  JavaScript strings are Lean
strings; String.prototype.trim is modelled on the four ASCII whitespace
characters.  The real-valued distance computation of calculateDistance is
modelled over the reals.
-/

namespace SchoolApi

/-- Model of a JavaScript number: NaN, the infinities, or a finite value. -/
inductive JSNum where
  | nan : JSNum
  | posInf : JSNum
  | negInf : JSNum
  | fin (q : ℚ) : JSNum
deriving DecidableEq, Repr

/-- Model of the JavaScript values that can reach the validators:
undefined, null, booleans, numbers and strings. -/
inductive JSValue where
  | undef : JSValue
  | null : JSValue
  | bool (b : Bool) : JSValue
  | num (n : JSNum) : JSValue
  | str (s : String) : JSValue
deriving DecidableEq, Repr

/-- JavaScript truthiness test, used by the negation operator in the
name and address checks of validateSchoolData. -/
def jsFalsy : JSValue → Bool
  | .undef => true
  | .null => true
  | .bool b => !b
  | .num .nan => true
  | .num (.fin q) => decide (q = 0)
  | .num _ => false
  | .str s => decide (s = "")

/-- Model of String.prototype.trim: drop whitespace from both ends. -/
def jsTrim (s : String) : String :=
  String.mk (((s.toList.dropWhile Char.isWhitespace).reverse.dropWhile
    Char.isWhitespace).reverse)

/-- Numeric value of one decimal digit character. -/
def digitVal (c : Char) : ℕ := c.toNat - 48

/-- Numeric value of a list of decimal digit characters. -/
def digitsVal (ds : List Char) : ℕ := ds.foldl (fun a c => 10 * a + digitVal c) 0

/-- Optional leading sign of a numeric literal; returns whether the value
is negated together with the remaining characters. -/
def parseSign (cs : List Char) : Bool × List Char :=
  match cs with
  | c :: r => if c = '-' then (true, r) else if c = '+' then (false, r) else (false, cs)
  | [] => (false, [])

/-- Unsigned decimal significand, digits with an optional fractional part,
read as the longest valid prefix; returns the concatenated digit value,
the number of fractional digits, and the remaining characters. -/
def parseUnsigned (cs : List Char) : Option ((ℕ × ℕ) × List Char) :=
  let ip := cs.takeWhile Char.isDigit
  let rest := cs.dropWhile Char.isDigit
  match rest with
  | c :: rest2 =>
    if c = '.' then
      let fp := rest2.takeWhile Char.isDigit
      let rest3 := rest2.dropWhile Char.isDigit
      if ip.isEmpty && fp.isEmpty then none
      else some ((digitsVal (ip ++ fp), fp.length), rest3)
    else if ip.isEmpty then none else some ((digitsVal ip, 0), rest)
  | [] => if ip.isEmpty then none else some ((digitsVal ip, 0), [])

/-- Optional exponent part of a numeric literal; fails (and the caller
backtracks, as JavaScript does) when no digits follow the marker. -/
def parseExponent (cs : List Char) : Option ℤ :=
  match cs with
  | c :: rest =>
    if c = 'e' ∨ c = 'E' then
      let (neg, rest2) := parseSign rest
      let ds := rest2.takeWhile Char.isDigit
      if ds.isEmpty then none
      else some ((if neg then -1 else 1) * (digitsVal ds : ℤ))
    else none
  | [] => none

/-- Model of the global parseFloat: skip leading whitespace, read an
optional sign, then either an Infinity literal or the longest decimal
significand with optional exponent; trailing characters are ignored and
a completely unparsable input yields NaN. -/
def parseFloat (s : String) : JSNum :=
  let cs := s.toList.dropWhile Char.isWhitespace
  let (neg, cs2) := parseSign cs
  if ("Infinity".toList).isPrefixOf cs2 then
    (if neg then .negInf else .posInf)
  else
    match parseUnsigned cs2 with
    | none => .nan
    | some ((m, fl), rest) =>
      let e : ℤ := (parseExponent rest).getD 0 - (fl : ℤ)
      let sm : ℤ := if neg then -(m : ℤ) else (m : ℤ)
      .fin (if 0 ≤ e then mkRat (sm * ((10 ^ e.toNat : ℕ) : ℤ)) 1
            else mkRat sm (10 ^ (-e).toNat))

/-- Result object of both validators: either isValid:false with a message,
or isValid:true carrying the parsed lat and lon. -/
inductive VResult where
  | invalid (message : String) : VResult
  | valid (lat lon : JSNum) : VResult
deriving DecidableEq, Repr

/-- Error message of the coordinate presence check. -/
def missingMsg : String := "Latitude and longitude are required and must not be empty"

/-- Error message of the latitude number-and-range check. -/
def latMsg : String := "Latitude must be a valid number between -90 and 90"

/-- Error message of the longitude number-and-range check. -/
def lonMsg : String := "Longitude must be a valid number between -180 and 180"

/-- Error message of the name check. -/
def nameMsg : String := "Name is required and must be at least 3 characters long"

/-- Error message of the address check. -/
def addrMsg : String := "Address is required and must be at least 5 characters long"

/-- Error message when no database handle is available. -/
def dbMsg : String := "Database connection is not available"

/-- Error message of the duplicate check. -/
def dupMsg : String := "School with the same name and address already exists"

/-- The presence test both validators apply to each raw coordinate:
strictly equal to undefined, to null, or to the empty string. -/
def isMissing (v : JSValue) : Bool :=
  decide (v = .undef) || decide (v = .null) || decide (v = .str "")

/-- The coercion step applied to each raw coordinate: strings are trimmed
and parsed with parseFloat, every other value is left as it is. -/
def coerceCoord (v : JSValue) : JSValue :=
  match v with
  | .str s => .num (parseFloat (jsTrim s))
  | v => v

/-- The latitude rejection test applied after coercion: not a number,
NaN, non-finite, or outside the interval from -90 to 90. -/
def latBad (v : JSValue) : Bool :=
  match v with
  | .num (.fin q) => decide (q < -90) || decide (90 < q)
  | _ => true

/-- The longitude rejection test applied after coercion: not a number,
NaN, non-finite, or outside the interval from -180 to 180. -/
def lonBad (v : JSValue) : Bool :=
  match v with
  | .num (.fin q) => decide (q < -180) || decide (180 < q)
  | _ => true

/-- Numeric payload of a coerced coordinate (only used after the checks
have guaranteed the value is a number). -/
def getNum (v : JSValue) : JSNum :=
  match v with
  | .num n => n
  | _ => .nan

/-- String payload of a value (only used after the checks have
guaranteed the value is a string). -/
def strVal (v : JSValue) : String :=
  match v with
  | .str s => s
  | _ => ""

/-- Model of validateCoordinates from the utils module: presence check on
both raw values, coercion, then the latitude and the longitude check in
that order. -/
def validateCoordinates (latitude longitude : JSValue) : VResult :=
  if isMissing latitude || isMissing longitude then .invalid missingMsg
  else
    let lat := coerceCoord latitude
    let lon := coerceCoord longitude
    if latBad lat then .invalid latMsg
    else if lonBad lon then .invalid lonMsg
    else .valid (getNum lat) (getNum lon)

/-- The name rejection test of validateSchoolData: falsy, not a string,
or trimmed length below 3. -/
def nameBad (v : JSValue) : Bool :=
  jsFalsy v ||
    (match v with
     | .str s => decide ((jsTrim s).length < 3)
     | _ => true)

/-- The address rejection test of validateSchoolData: falsy, not a
string, or trimmed length below 5. -/
def addressBad (v : JSValue) : Bool :=
  jsFalsy v ||
    (match v with
     | .str s => decide ((jsTrim s).length < 5)
     | _ => true)

/-- One row of the schools table as the insert statement writes it. -/
structure StoredRecord where
  name : String
  address : String
  latitude : JSNum
  longitude : JSNum
deriving DecidableEq, Repr

/-- The schools table. -/
abbrev Store := List StoredRecord

/-- Model of the duplicate-check query: does some stored row have exactly
this name and this address (SQL equality modelled as string equality). -/
def existsMatch (store : Store) (n a : String) : Bool :=
  store.any (fun r => decide (r.name = n) && decide (r.address = a))

/-- The request body of the add-school endpoint. -/
structure SchoolData where
  name : JSValue
  address : JSValue
  latitude : JSValue
  longitude : JSValue
deriving DecidableEq, Repr

/-- Model of validateSchoolData from the utils module: name check,
address check, coordinate presence check, coercion, latitude check,
longitude check, database availability, duplicate check, in that order,
returning at the first failure.  The database handle is an Option so
that an unavailable connection is representable. -/
def validateSchoolData (d : SchoolData) (db : Option Store) : VResult :=
  if nameBad d.name then .invalid nameMsg
  else if addressBad d.address then .invalid addrMsg
  else if isMissing d.latitude || isMissing d.longitude then .invalid missingMsg
  else
    let lat := coerceCoord d.latitude
    let lon := coerceCoord d.longitude
    if latBad lat then .invalid latMsg
    else if lonBad lon then .invalid lonMsg
    else
      match db with
      | none => .invalid dbMsg
      | some store =>
        if existsMatch store (jsTrim (strVal d.name)) (jsTrim (strVal d.address)) then
          .invalid dupMsg
        else .valid (getNum lat) (getNum lon)

/-- Model of parseFloat applied to an arbitrary JavaScript value, as the
insert path of addSchool does: numbers round-trip through their string
form unchanged, strings are parsed (parseFloat itself skips leading
whitespace), everything else stringifies to a non-numeric word. -/
def jsParseFloatVal (v : JSValue) : JSNum :=
  match v with
  | .num n => n
  | .str s => parseFloat s
  | _ => .nan

/-- Response of the add-school endpoint, stripped to the parts the core
determines: a 400 with the validation message, or a 201 echo. -/
inductive AddResult where
  | badRequest (message : String) : AddResult
  | created (name address : String) (latitude longitude : JSNum) : AddResult
deriving DecidableEq, Repr

/-- Model of the addSchool handler: validate against the current store;
on failure answer 400 and leave the store alone; on success insert the
raw name and address with the re-parsed coordinates and answer 201. -/
def addSchool (d : SchoolData) (store : Store) : Store × AddResult :=
  match validateSchoolData d (some store) with
  | .invalid m => (store, .badRequest m)
  | .valid _ _ =>
    let r : StoredRecord :=
      ⟨strVal d.name, strVal d.address, jsParseFloatVal d.latitude,
        jsParseFloatVal d.longitude⟩
    (store ++ [r], .created r.name r.address r.latitude r.longitude)

/-- A sequence of add-school requests applied in order. -/
def addMany (ds : List SchoolData) (store : Store) : Store :=
  ds.foldl (fun st d => (addSchool d st).1) store

/-- Degrees to radians, as the toRadians helper inside calculateDistance. -/
noncomputable def toRadians (degrees : ℝ) : ℝ := degrees * Real.pi / 180

/-- Model of Math.atan2 on the reals. -/
noncomputable def jsAtan2 (y x : ℝ) : ℝ :=
  if 0 < x then Real.arctan (y / x)
  else if x < 0 then
    (if 0 ≤ y then Real.arctan (y / x) + Real.pi else Real.arctan (y / x) - Real.pi)
  else if 0 < y then Real.pi / 2
  else if y < 0 then -(Real.pi / 2)
  else 0

/-- Model of calculateDistance from the utils module, the haversine
computation exactly as the source writes it. -/
noncomputable def calculateDistance (lat1 lon1 lat2 lon2 : ℝ) : ℝ :=
  let dLat := toRadians (lat2 - lat1)
  let dLon := toRadians (lon2 - lon1)
  let rlat1 := toRadians lat1
  let rlat2 := toRadians lat2
  let a := Real.sin (dLat / 2) * Real.sin (dLat / 2) +
    Real.sin (dLon / 2) * Real.sin (dLon / 2) * Real.cos rlat1 * Real.cos rlat2
  let c := 2 * jsAtan2 (Real.sqrt a) (Real.sqrt (1 - a))
  6371 * c

/-- Modelled from the spec: the haversine formula exactly as section 4.3
words it, to be compared with the code's calculateDistance. -/
noncomputable def haversineSpec (lat1 lon1 lat2 lon2 : ℝ) : ℝ :=
  let dlat := toRadians (lat2 - lat1)
  let dlon := toRadians (lon2 - lon1)
  let a := Real.sin (dlat / 2) ^ 2 +
    Real.cos (toRadians lat1) * Real.cos (toRadians lat2) * Real.sin (dlon / 2) ^ 2
  let c := 2 * jsAtan2 (Real.sqrt a) (Real.sqrt (1 - a))
  6371 * c

/-- Model of parseFloat(x.toFixed(2)): round to two decimal places,
ties away from zero on the positive values that occur here. -/
noncomputable def round2 (x : ℝ) : ℝ := (round (x * 100) : ℤ) / 100

/-- One row fetched by the list-schools query. -/
structure GeoRecord where
  id : ℕ
  name : String
  address : String
  lat : ℝ
  lon : ℝ

/-- A ranked entry: the fetched row with the rounded distance the map
step attaches to it. -/
abbrev Ranked := GeoRecord × ℝ

/-- The comparison the sort comparator (a, b) => a.distance - b.distance
induces on ranked entries. -/
def distLE (a b : Ranked) : Prop := a.2 ≤ b.2

noncomputable instance : DecidableRel distLE :=
  fun a b => Real.decidableLE a.2 b.2

instance : IsTotal Ranked distLE := ⟨fun a b => le_total a.2 b.2⟩

instance : IsTrans Ranked distLE := ⟨fun _ _ _ h h' => le_trans h h'⟩

/-- The map step of listSchools: attach the rounded distance from the
reference point to every fetched row, in fetch order. -/
noncomputable def withDistance (ulat ulon : ℝ) (schools : List GeoRecord) : List Ranked :=
  schools.map (fun s => (s, round2 (calculateDistance ulat ulon s.lat s.lon)))

/-- The core of listSchools: attach rounded distances, then sort by the
attached distance.  Array.prototype.sort with a consistent comparator is
stable (ECMAScript 2019), which a stable insertion sort models. -/
noncomputable def rankSchools (ulat ulon : ℝ) (schools : List GeoRecord) : List Ranked :=
  List.insertionSort distLE (withDistance ulat ulon schools)

/-! Theorems about the embedded program. -/

/-- C7: for every two coordinate pairs, calculateDistance computes the
haversine great-circle distance exactly as the spec states it: with the
deltas converted to radians, a as the sum of the squared half-delta sine
and the product of the two latitude cosines with the squared half-delta
longitude sine, c as twice the atan2 of the square roots, and the result
6371 times c. -/
theorem C7_calculateDistance_is_haversine (lat1 lon1 lat2 lon2 : ℝ) :
    calculateDistance lat1 lon1 lat2 lon2 = haversineSpec lat1 lon1 lat2 lon2 := by
  simp only [calculateDistance, haversineSpec]
  have h : ∀ x y u v : ℝ,
      Real.sin x * Real.sin x + Real.sin y * Real.sin y * Real.cos u * Real.cos v =
        Real.sin x ^ 2 + Real.cos u * Real.cos v * Real.sin y ^ 2 := by
    intros; ring
  rw [h]

/-- C3 counterexample: a latitude that parses to NaN, a latitude out of
range, and a non-finite latitude all produce one and the same failure
result, so the two failure kinds the claim distinguishes coincide. -/
theorem C3_counterexample :
    validateCoordinates (.str "abc") (.num (.fin 0)) = .invalid latMsg ∧
    validateCoordinates (.num (.fin 91)) (.num (.fin 0)) = .invalid latMsg ∧
    validateCoordinates (.num .posInf) (.num (.fin 0)) = .invalid latMsg := by
  decide

/-- C3 amended: validateCoordinates does not distinguish a failed parse
(NaN) from a non-finite or out-of-range value; for each coordinate all
these failure modes yield the single range message of that coordinate,
the latitude message taking precedence. -/
theorem C3_amended (la lo : JSValue)
    (hla : isMissing la = false) (hlo : isMissing lo = false) :
    (latBad (coerceCoord la) = true → validateCoordinates la lo = .invalid latMsg) ∧
    (latBad (coerceCoord la) = false → lonBad (coerceCoord lo) = true →
      validateCoordinates la lo = .invalid lonMsg) := by
  constructor
  · intro h
    simp [validateCoordinates, hla, hlo, h]
  · intro h h'
    simp [validateCoordinates, hla, hlo, h, h']

/-- C3 amended witness: the NaN parse "abc" and the out-of-range
longitude 200 each hit their single shared message. -/
theorem C3_amended_witness :
    validateCoordinates (.str "abc") (.num (.fin 0)) = .invalid latMsg ∧
    validateCoordinates (.num (.fin 0)) (.num (.fin 200)) = .invalid lonMsg := by
  constructor
  · exact (C3_amended (.str "abc") (.num (.fin 0)) (by decide) (by decide)).1 (by decide)
  · exact (C3_amended (.num (.fin 0)) (.num (.fin 200)) (by decide) (by decide)).2
      (by decide) (by decide)

/-- C4 counterexample: a whitespace-only latitude string is not caught by
the presence check (which compares against the exact empty string before
any trimming) and instead fails through the NaN path with the latitude
range message, which differs from the missing-field message. -/
theorem C4_counterexample :
    validateCoordinates (.str " ") (.num (.fin 0)) = .invalid latMsg ∧
    latMsg ≠ missingMsg := by
  decide

/-- C4 amended: absent, null and exactly-empty coordinates fail with the
missing-field message, but a whitespace-only non-empty string passes the
presence check and fails with the latitude range message (the NaN path)
instead. -/
theorem C4_amended (la lo : JSValue) (s : String) :
    (la = .undef ∨ la = .null ∨ la = .str "" ∨
        lo = .undef ∨ lo = .null ∨ lo = .str "" →
      validateCoordinates la lo = .invalid missingMsg) ∧
    (s ≠ "" → jsTrim s = "" → isMissing lo = false →
      validateCoordinates (.str s) lo = .invalid latMsg) := by
  constructor
  · intro h
    have hm : (isMissing la || isMissing lo) = true := by
      rcases h with h | h | h | h | h | h <;> subst h <;> simp [isMissing]
    simp [validateCoordinates, hm]
  · intro hne htrim hlo
    have hm : isMissing (.str s) = false := by
      simp [isMissing, hne]
    have hc : coerceCoord (.str s) = .num .nan := by
      simp [coerceCoord, htrim]
      decide
    simp [validateCoordinates, hm, hlo, hc, latBad]

/-- C4 amended witness at the null latitude and the whitespace-only
latitude string. -/
theorem C4_amended_witness :
    validateCoordinates .null (.num (.fin 0)) = .invalid missingMsg ∧
    validateCoordinates (.str "  ") (.num (.fin 0)) = .invalid latMsg := by
  constructor
  · exact (C4_amended .null (.num (.fin 0)) "").1 (Or.inr (Or.inl rfl))
  · exact (C4_amended .undef (.num (.fin 0)) "  ").2 (by decide) (by decide) (by decide)

/-- C8: every latitude in the range from -90 to 90 and longitude in the
range from -180 to 180, given as numbers or as strings that trim-parse
to those values, is accepted, and the returned pair is exactly the
parsed input values; the validator is a pure function, so this also
records the absence of side effects. -/
theorem C8_roundtrip (qla qlo : ℚ)
    (h1 : -90 ≤ qla) (h2 : qla ≤ 90) (h3 : -180 ≤ qlo) (h4 : qlo ≤ 180) :
    validateCoordinates (.num (.fin qla)) (.num (.fin qlo)) =
      .valid (.fin qla) (.fin qlo) ∧
    (∀ s t : String, parseFloat (jsTrim s) = .fin qla →
      parseFloat (jsTrim t) = .fin qlo →
      validateCoordinates (.str s) (.str t) = .valid (.fin qla) (.fin qlo)) := by
  have hlat : latBad (.num (.fin qla)) = false := by
    simp [latBad]
    constructor <;> [linarith; linarith]
  have hlon : lonBad (.num (.fin qlo)) = false := by
    simp [lonBad]
    constructor <;> [linarith; linarith]
  constructor
  · simp [validateCoordinates, isMissing, coerceCoord, hlat, hlon, getNum]
  · intro s t hs ht
    have hsne : s ≠ "" := by
      intro h
      subst h
      rw [show jsTrim "" = "" from rfl,
        show parseFloat "" = JSNum.nan from by decide] at hs
      exact JSNum.noConfusion hs
    have htne : t ≠ "" := by
      intro h
      subst h
      rw [show jsTrim "" = "" from rfl,
        show parseFloat "" = JSNum.nan from by decide] at ht
      exact JSNum.noConfusion ht
    have hm : (isMissing (.str s) || isMissing (.str t)) = false := by
      simp [isMissing, hsne, htne]
    have hcs : coerceCoord (.str s) = .num (.fin qla) := by
      simp [coerceCoord, hs]
    have hct : coerceCoord (.str t) = .num (.fin qlo) := by
      simp [coerceCoord, ht]
    simp [validateCoordinates, hm, hcs, hct, hlat, hlon, getNum]

/-- C8 witness at the numeric pair (45.5, -120) and the string pair
(" 45.5 ", "-120"). -/
theorem C8_roundtrip_witness :
    validateCoordinates (.num (.fin (mkRat 91 2))) (.num (.fin (-120))) =
      .valid (.fin (mkRat 91 2)) (.fin (-120)) ∧
    validateCoordinates (.str " 45.5 ") (.str "-120") =
      .valid (.fin (mkRat 91 2)) (.fin (-120)) := by
  have h := C8_roundtrip (mkRat 91 2) (-120) (by decide) (by decide) (by decide) (by decide)
  exact ⟨h.1, h.2 " 45.5 " "-120" (by decide) (by decide)⟩

/-- C9: validation is atomic with respect to the store: when validation
fails with any message the add operation leaves the stored list
unchanged, and an insert happens exactly when validation succeeds. -/
theorem C9_atomic (d : SchoolData) (store : Store) :
    (∀ m, validateSchoolData d (some store) = .invalid m →
      (addSchool d store).1 = store) ∧
    (∀ la lo, validateSchoolData d (some store) = .valid la lo →
      (addSchool d store).1 = store ++ [⟨strVal d.name, strVal d.address,
        jsParseFloatVal d.latitude, jsParseFloatVal d.longitude⟩]) := by
  constructor
  · intro m h
    simp [addSchool, h]
  · intro la lo h
    simp [addSchool, h]

/-- C9 witness: a failing submission (short name) leaves the singleton
store unchanged. -/
theorem C9_atomic_witness :
    (addSchool ⟨.str "Oa", .str "1 Main St", .str "10", .str "20"⟩
      [⟨"Oak School", "1 Main St", .fin 0, .fin 0⟩]).1 =
      [⟨"Oak School", "1 Main St", .fin 0, .fin 0⟩] :=
  (C9_atomic ⟨.str "Oa", .str "1 Main St", .str "10", .str "20"⟩
    [⟨"Oak School", "1 Main St", .fin 0, .fin 0⟩]).1 nameMsg (by decide)

/-- Once the name and address checks pass, validateSchoolData runs
exactly the coordinate pipeline of validateCoordinates and then the
database part; shared helper for the delegation and ordering claims. -/
theorem validateSchoolData_delegates (nm ad la lo : JSValue) (db : Option Store)
    (h1 : nameBad nm = false) (h2 : addressBad ad = false) :
    validateSchoolData ⟨nm, ad, la, lo⟩ db =
      (match validateCoordinates la lo with
       | .invalid m => .invalid m
       | .valid x y =>
         match db with
         | none => .invalid dbMsg
         | some store =>
           if existsMatch store (jsTrim (strVal nm)) (jsTrim (strVal ad)) then
             .invalid dupMsg
           else .valid x y) := by
  by_cases hm : (isMissing la || isMissing lo) = true
  · simp [validateSchoolData, validateCoordinates, h1, h2, hm]
  · by_cases hlat : latBad (coerceCoord la) = true
    · simp [validateSchoolData, validateCoordinates, h1, h2, hm, hlat]
    · by_cases hlon : lonBad (coerceCoord lo) = true
      · simp [validateSchoolData, validateCoordinates, h1, h2, hm, hlat, hlon]
      · cases db <;>
          simp [validateSchoolData, validateCoordinates, h1, h2, hm, hlat, hlon]

/-- C5: with a valid name and address, the coordinate checks inside
validateSchoolData accept and reject exactly as validateCoordinates on
the same raw inputs, propagate its failure message unchanged, and on
success carry exactly its parsed lat and lon into the remaining
duplicate stage. -/
theorem C5_coordinate_delegation (nm ad la lo : JSValue) (db : Option Store)
    (h1 : nameBad nm = false) (h2 : addressBad ad = false) :
    (∀ m, validateCoordinates la lo = .invalid m →
      validateSchoolData ⟨nm, ad, la, lo⟩ db = .invalid m) ∧
    (∀ x y, validateCoordinates la lo = .valid x y →
      validateSchoolData ⟨nm, ad, la, lo⟩ db = .invalid dbMsg ∨
      validateSchoolData ⟨nm, ad, la, lo⟩ db = .invalid dupMsg ∨
      validateSchoolData ⟨nm, ad, la, lo⟩ db = .valid x y) := by
  have key := validateSchoolData_delegates nm ad la lo db h1 h2
  constructor
  · intro m h
    rw [key, h]
  · intro x y h
    rw [key, h]
    match db with
    | none => exact Or.inl rfl
    | some store =>
      by_cases hd : existsMatch store (jsTrim (strVal nm)) (jsTrim (strVal ad)) = true
      · right; left; simp [hd]
      · right; right; simp [hd]

/-- C5 witness: a NaN latitude string propagates the latitude message,
and a valid pair reaches success with the same parsed values. -/
theorem C5_coordinate_delegation_witness :
    validateSchoolData ⟨.str "Oak", .str "1 Main St", .str "abc", .str "20"⟩ (some []) =
      .invalid latMsg ∧
    (validateSchoolData ⟨.str "Oak", .str "1 Main St", .str "10", .str "20"⟩ (some []) =
        .invalid dbMsg ∨
      validateSchoolData ⟨.str "Oak", .str "1 Main St", .str "10", .str "20"⟩ (some []) =
        .invalid dupMsg ∨
      validateSchoolData ⟨.str "Oak", .str "1 Main St", .str "10", .str "20"⟩ (some []) =
        .valid (.fin 10) (.fin 20)) := by
  constructor
  · exact (C5_coordinate_delegation (.str "Oak") (.str "1 Main St") (.str "abc")
      (.str "20") (some []) (by decide) (by decide)).1 latMsg (by decide)
  · exact (C5_coordinate_delegation (.str "Oak") (.str "1 Main St") (.str "10")
      (.str "20") (some []) (by decide) (by decide)).2 (.fin 10) (.fin 20) (by decide)

/-- C6: the checks run in the fixed order name, address,
coordinates-present, latitude range, longitude range, duplicate, and the
validator reports exactly the first failing check; moreover when any of
the checks before the duplicate stage fails the result does not depend
on the store at all, so no store round trip is observable. -/
theorem C6_first_failure (d : SchoolData) (db : Option Store) :
    (nameBad d.name = true → validateSchoolData d db = .invalid nameMsg) ∧
    (nameBad d.name = false → addressBad d.address = true →
      validateSchoolData d db = .invalid addrMsg) ∧
    (nameBad d.name = false → addressBad d.address = false →
      (isMissing d.latitude || isMissing d.longitude) = true →
      validateSchoolData d db = .invalid missingMsg) ∧
    (nameBad d.name = false → addressBad d.address = false →
      (isMissing d.latitude || isMissing d.longitude) = false →
      latBad (coerceCoord d.latitude) = true →
      validateSchoolData d db = .invalid latMsg) ∧
    (nameBad d.name = false → addressBad d.address = false →
      (isMissing d.latitude || isMissing d.longitude) = false →
      latBad (coerceCoord d.latitude) = false →
      lonBad (coerceCoord d.longitude) = true →
      validateSchoolData d db = .invalid lonMsg) ∧
    (∀ db' : Option Store,
      (nameBad d.name || addressBad d.address ||
        (isMissing d.latitude || isMissing d.longitude) ||
        latBad (coerceCoord d.latitude) ||
        lonBad (coerceCoord d.longitude)) = true →
      validateSchoolData d db = validateSchoolData d db') := by
  refine ⟨?_, ?_, ?_, ?_, ?_, ?_⟩
  · intro h1
    simp [validateSchoolData, h1]
  · intro h1 h2
    simp [validateSchoolData, h1, h2]
  · intro h1 h2 h3
    simp [validateSchoolData, h1, h2, h3]
  · intro h1 h2 h3 h4
    simp [validateSchoolData, h1, h2, h3, h4]
  · intro h1 h2 h3 h4 h5
    simp [validateSchoolData, h1, h2, h3, h4, h5]
  · intro db' h
    by_cases h1 : nameBad d.name = true
    · simp [validateSchoolData, h1]
    · by_cases h2 : addressBad d.address = true
      · simp [validateSchoolData, h1, h2]
      · by_cases h3 : (isMissing d.latitude || isMissing d.longitude) = true
        · simp [validateSchoolData, h1, h2, h3]
        · by_cases h4 : latBad (coerceCoord d.latitude) = true
          · simp [validateSchoolData, h1, h2, h3, h4]
          · by_cases h5 : lonBad (coerceCoord d.longitude) = true
            · simp [validateSchoolData, h1, h2, h3, h4, h5]
            · rw [Bool.not_eq_true] at h1 h2 h3 h4 h5
              rw [h1, h2, h3, h4, h5] at h
              simp at h

/-- C6 witness: a bad name wins over every later problem, and the
result with a store equals the result without one. -/
theorem C6_first_failure_witness :
    validateSchoolData ⟨.str "Oa", .str "x", .undef, .str "bad"⟩
      (some [⟨"Oak School", "1 Main St", .fin 0, .fin 0⟩]) = .invalid nameMsg ∧
    validateSchoolData ⟨.str "Oa", .str "x", .undef, .str "bad"⟩
      (some [⟨"Oak School", "1 Main St", .fin 0, .fin 0⟩]) =
      validateSchoolData ⟨.str "Oa", .str "x", .undef, .str "bad"⟩ none := by
  constructor
  · exact (C6_first_failure ⟨.str "Oa", .str "x", .undef, .str "bad"⟩
      (some [⟨"Oak School", "1 Main St", .fin 0, .fin 0⟩])).1 (by decide)
  · exact (C6_first_failure ⟨.str "Oa", .str "x", .undef, .str "bad"⟩
      (some [⟨"Oak School", "1 Main St", .fin 0, .fin 0⟩])).2.2.2.2.2 none (by decide)

/-- A decimal digit is not whitespace. -/
theorem digit_not_ws {c : Char} (h : c.isDigit = true) : c.isWhitespace = false := by
  by_contra hw
  rw [Bool.not_eq_false] at hw
  simp only [Char.isWhitespace, Bool.or_eq_true, decide_eq_true_eq] at hw
  rcases hw with ((rfl | rfl) | rfl) | rfl <;> exact absurd h (by decide)

/-- A decimal digit differs from any non-digit character. -/
theorem digit_ne {c x : Char} (h : c.isDigit = true) (hx : x.isDigit = false) : c ≠ x :=
  fun he => by rw [he, hx] at h; exact Bool.noConfusion h

/-- Evaluation of parseFloat on a digit sequence followed by a tail that
cannot extend the numeric literal: the digits are parsed and the tail is
ignored. -/
theorem parseFloat_digits_tail (ds t : List Char) (hne : ds ≠ [])
    (hdig : ∀ c ∈ ds, c.isDigit = true)
    (htail : ∀ c t', t = c :: t' →
      c.isDigit = false ∧ c ≠ '.' ∧ c ≠ 'e' ∧ c ≠ 'E') :
    parseFloat (String.mk (ds ++ t)) = .fin ((digitsVal ds : ℚ)) := by
  obtain ⟨c0, ds', rfl⟩ : ∃ c0 ds', ds = c0 :: ds' := by
    cases ds with
    | nil => exact absurd rfl hne
    | cons a l => exact ⟨a, l, rfl⟩
  have hc0 : c0.isDigit = true := hdig c0 (by simp)
  have hlist : (String.mk ((c0 :: ds') ++ t)).toList = (c0 :: ds') ++ t := rfl
  have hws : ((c0 :: ds') ++ t).dropWhile Char.isWhitespace = (c0 :: ds') ++ t := by
    rw [List.cons_append, List.dropWhile_cons_of_neg (by simp [digit_not_ws hc0])]
  have hsign : parseSign ((c0 :: ds') ++ t) = (false, (c0 :: ds') ++ t) := by
    rw [List.cons_append, parseSign]
    rw [if_neg (digit_ne hc0 (by decide)), if_neg (digit_ne hc0 (by decide))]
  have hinf : ("Infinity".toList).isPrefixOf ((c0 :: ds') ++ t) = false := by
    rw [show "Infinity".toList = 'I' :: "nfinity".toList from rfl, List.cons_append,
      List.isPrefixOf_cons₂]
    have : ('I' == c0) = false :=
      beq_eq_false_iff_ne.mpr (digit_ne hc0 (by decide)).symm
    rw [this, Bool.false_and]
  have htake : ((c0 :: ds') ++ t).takeWhile Char.isDigit = c0 :: ds' := by
    rw [List.takeWhile_append_of_pos hdig]
    cases t with
    | nil => simp
    | cons c t' =>
      rw [List.takeWhile_cons_of_neg (by simp [(htail c t' rfl).1]), List.append_nil]
  have hdrop : ((c0 :: ds') ++ t).dropWhile Char.isDigit = t := by
    rw [List.dropWhile_append_of_pos hdig]
    cases t with
    | nil => simp
    | cons c t' =>
      rw [List.dropWhile_cons_of_neg (by simp [(htail c t' rfl).1])]
  have hpu : parseUnsigned ((c0 :: ds') ++ t) = some ((digitsVal (c0 :: ds'), 0), t) := by
    rw [parseUnsigned]
    simp only [htake, hdrop]
    cases t with
    | nil => simp
    | cons c t' =>
      simp [(htail c t' rfl).2.1]
  have hpe : (parseExponent t).getD 0 = 0 := by
    cases t with
    | nil => rfl
    | cons c t' =>
      rw [parseExponent]
      rw [if_neg]
      · rfl
      · rintro (h | h)
        · exact (htail c t' rfl).2.2.1 h
        · exact (htail c t' rfl).2.2.2 h
  rw [parseFloat]
  simp only [hlist, hws, hsign, hinf, hpu, hpe, Bool.false_eq_true, if_false]
  norm_num [Rat.mkRat_one]

/-- C10: a string coordinate whose trimmed form is a digit sequence
followed by characters that cannot extend the numeric literal is parsed
to the value of its digit prefix, and accepted whenever that value is in
range, rather than rejected as not a number. -/
theorem C10_trailing_characters (s : String) (ds t : List Char) (lo : JSValue)
    (htrim : jsTrim s = String.mk (ds ++ t))
    (hne : ds ≠ [])
    (hdig : ∀ c ∈ ds, c.isDigit = true)
    (htail : ∀ c t', t = c :: t' →
      c.isDigit = false ∧ c ≠ '.' ∧ c ≠ 'e' ∧ c ≠ 'E')
    (hrange : (digitsVal ds : ℚ) ≤ 90)
    (hlo : isMissing lo = false)
    (hlon : lonBad (coerceCoord lo) = false) :
    validateCoordinates (.str s) lo =
      .valid (.fin (digitsVal ds)) (getNum (coerceCoord lo)) := by
  have hparse := parseFloat_digits_tail ds t hne hdig htail
  have hsne : s ≠ "" := by
    intro h
    subst h
    rw [show jsTrim "" = "" from rfl] at htrim
    have hd : ([] : List Char) = ds ++ t := congrArg String.toList htrim
    cases ds with
    | nil => exact hne rfl
    | cons a l => exact List.noConfusion hd
  have hm : isMissing (.str s) = false := by simp [isMissing, hsne]
  have hc : coerceCoord (.str s) = .num (.fin (digitsVal ds)) := by
    simp [coerceCoord, htrim, hparse]
  have hlat : latBad (.num (.fin ((digitsVal ds : ℚ)))) = false := by
    simp only [latBad, Bool.or_eq_false_iff, decide_eq_false_iff_not, not_lt]
    have h0 : (0 : ℚ) ≤ (digitsVal ds : ℚ) := Nat.cast_nonneg _
    constructor <;> linarith
  simp [validateCoordinates, hm, hlo, hc, hlat, hlon, getNum]

/-- C10 witness at the string "45abc" of the claim's example. -/
theorem C10_trailing_characters_witness :
    validateCoordinates (.str "45abc") (.num (.fin 0)) =
      .valid (.fin (digitsVal ['4', '5'])) (getNum (coerceCoord (.num (.fin 0)))) := by
  refine C10_trailing_characters "45abc" ['4', '5'] ['a', 'b', 'c'] (.num (.fin 0))
    (by decide) (by decide) (by decide) ?_ (by decide) (by decide) (by decide)
  intro c t' h
  cases h
  decide

/-- No two stored records share the same trimmed name and trimmed
address: the uniqueness invariant the spec states. -/
def TrimmedUnique (st : Store) : Prop :=
  st.Pairwise (fun x y =>
    ¬(jsTrim x.name = jsTrim y.name ∧ jsTrim x.address = jsTrim y.address))

/-- Well-formed store: every stored name and address is already trimmed,
and no two records share exactly the same name and address. -/
def StoreWF (st : Store) : Prop :=
  (∀ r ∈ st, jsTrim r.name = r.name ∧ jsTrim r.address = r.address) ∧
  st.Pairwise (fun x y => ¬(x.name = y.name ∧ x.address = y.address))

/-- A submission whose name and address (when they are strings) carry no
surrounding whitespace. -/
def subTrimmed (d : SchoolData) : Bool :=
  (match d.name with | .str s => decide (jsTrim s = s) | _ => true) &&
  (match d.address with | .str s => decide (jsTrim s = s) | _ => true)

instance (st : Store) : Decidable (TrimmedUnique st) :=
  List.instDecidablePairwise st

instance (st : Store) : Decidable (StoreWF st) :=
  instDecidableAnd

/-- A well-formed store satisfies the trimmed-pair uniqueness invariant. -/
theorem StoreWF.trimmedUnique {st : Store} (h : StoreWF st) : TrimmedUnique st := by
  rcases h with ⟨ht, hp⟩
  refine hp.imp_of_mem ?_
  intro a b ha hb hr hc
  rw [(ht a ha).1, (ht a ha).2, (ht b hb).1, (ht b hb).2] at hc
  exact hr hc

/-- A value passing the name check is a string. -/
theorem nameBad_false_str {v : JSValue} (h : nameBad v = false) : ∃ s, v = .str s := by
  cases v with
  | undef => simp [nameBad, jsFalsy] at h
  | null => simp [nameBad, jsFalsy] at h
  | bool b => simp [nameBad] at h
  | num n => simp [nameBad] at h
  | str s => exact ⟨s, rfl⟩

/-- A value passing the address check is a string. -/
theorem addressBad_false_str {v : JSValue} (h : addressBad v = false) : ∃ s, v = .str s := by
  cases v with
  | undef => simp [addressBad, jsFalsy] at h
  | null => simp [addressBad, jsFalsy] at h
  | bool b => simp [addressBad] at h
  | num n => simp [addressBad] at h
  | str s => exact ⟨s, rfl⟩

/-- Inversion of a successful school validation: the name and address
checks passed and the duplicate query found no exact match for the
trimmed submission. -/
theorem validateSchoolData_valid_inv {d : SchoolData} {st : Store} {la lo : JSNum}
    (h : validateSchoolData d (some st) = .valid la lo) :
    nameBad d.name = false ∧ addressBad d.address = false ∧
    existsMatch st (jsTrim (strVal d.name)) (jsTrim (strVal d.address)) = false := by
  by_cases h1 : nameBad d.name = true
  · simp [validateSchoolData, h1] at h
  · rw [Bool.not_eq_true] at h1
    by_cases h2 : addressBad d.address = true
    · simp [validateSchoolData, h1, h2] at h
    · rw [Bool.not_eq_true] at h2
      by_cases h3 : (isMissing d.latitude || isMissing d.longitude) = true
      · simp [validateSchoolData, h1, h2, h3] at h
      · rw [Bool.not_eq_true] at h3
        by_cases h4 : latBad (coerceCoord d.latitude) = true
        · simp [validateSchoolData, h1, h2, h3, h4] at h
        · rw [Bool.not_eq_true] at h4
          by_cases h5 : lonBad (coerceCoord d.longitude) = true
          · simp [validateSchoolData, h1, h2, h3, h4, h5] at h
          · rw [Bool.not_eq_true] at h5
            by_cases h6 : existsMatch st (jsTrim (strVal d.name))
                (jsTrim (strVal d.address)) = true
            · simp [validateSchoolData, h1, h2, h3, h4, h5, h6] at h
            · rw [Bool.not_eq_true] at h6
              exact ⟨h1, h2, h6⟩

/-- One add-school request keeps a well-formed store well-formed,
provided the submission itself carries trimmed text fields. -/
theorem addSchool_preserves_WF (st : Store) (d : SchoolData)
    (hwf : StoreWF st) (hd : subTrimmed d = true) : StoreWF (addSchool d st).1 := by
  cases hv : validateSchoolData d (some st) with
  | invalid m => simpa [addSchool, hv] using hwf
  | valid la lo =>
    obtain ⟨h1, h2, h6⟩ := validateSchoolData_valid_inv hv
    obtain ⟨n, hn⟩ := nameBad_false_str h1
    obtain ⟨a, ha⟩ := addressBad_false_str h2
    have htrims : jsTrim n = n ∧ jsTrim a = a := by
      rw [subTrimmed, hn, ha] at hd
      simpa using hd
    have hfst : (addSchool d st).1 = st ++ [⟨n, a, jsParseFloatVal d.latitude,
        jsParseFloatVal d.longitude⟩] := by
      simp [addSchool, hv, hn, ha, strVal]
    rw [hn, strVal, htrims.1, ha] at h6
    rw [show strVal (.str a) = a from rfl, htrims.2] at h6
    rw [existsMatch, List.any_eq_false] at h6
    rw [hfst]
    constructor
    · intro r hr
      rcases List.mem_append.mp hr with hr | hr
      · exact hwf.1 r hr
      · rcases List.mem_singleton.mp hr with rfl
        exact ⟨htrims.1, htrims.2⟩
    · rw [List.pairwise_append]
      refine ⟨hwf.2, List.pairwise_singleton _ _, ?_⟩
      intro x hx y hy hc
      rcases List.mem_singleton.mp hy with rfl
      have := h6 x hx
      simp only [Bool.and_eq_true, decide_eq_true_eq, not_and] at this
      exact (this hc.1) hc.2

/-- C1 counterexample: from the empty store, adding a school whose name
carries a leading space and then the same school with the trimmed name
both succeed, because the insert stores the raw submission while the
duplicate query compares the trimmed one; the resulting store violates
the trimmed-pair uniqueness invariant, and a submission whose trimmed
name and address match the first stored record is accepted rather than
rejected as a duplicate. -/
theorem C1_counterexample :
    addMany [⟨.str " Oak School", .str "1 Main St", .str "10", .str "20"⟩,
             ⟨.str "Oak School", .str "1 Main St", .str "11", .str "21"⟩] [] =
      [⟨" Oak School", "1 Main St", .fin 10, .fin 20⟩,
       ⟨"Oak School", "1 Main St", .fin 11, .fin 21⟩] ∧
    ¬TrimmedUnique
      [⟨" Oak School", "1 Main St", .fin 10, .fin 20⟩,
       ⟨"Oak School", "1 Main St", .fin 11, .fin 21⟩] ∧
    validateSchoolData ⟨.str "Oak School", .str "1 Main St", .str "12", .str "22"⟩
      (some [⟨" Oak School", "1 Main St", .fin 10, .fin 20⟩]) =
      .valid (.fin 12) (.fin 22) := by
  refine ⟨by decide, by decide, by decide⟩

/-- C1 amended: on a well-formed store (stored names and addresses
trimmed and exactly unique), any sequence of add operations whose
submissions carry trimmed text fields preserves well-formedness and
hence the trimmed-pair uniqueness invariant; and a submission whose
trimmed name and trimmed address match a stored record, with the
earlier checks passing, fails with the duplicate message regardless of
its surrounding whitespace or its coordinates. -/
theorem C1_amended (st : Store) (ds : List SchoolData)
    (hwf : StoreWF st) (hds : ∀ d ∈ ds, subTrimmed d = true) :
    (StoreWF (addMany ds st) ∧ TrimmedUnique (addMany ds st)) ∧
    (∀ (d : SchoolData) (r : StoredRecord) (n a : String), r ∈ st →
      d.name = .str n → d.address = .str a →
      jsTrim n = r.name → jsTrim a = r.address →
      nameBad d.name = false → addressBad d.address = false →
      (isMissing d.latitude || isMissing d.longitude) = false →
      latBad (coerceCoord d.latitude) = false →
      lonBad (coerceCoord d.longitude) = false →
      validateSchoolData d (some st) = .invalid dupMsg) := by
  constructor
  · have key : StoreWF (addMany ds st) := by
      induction ds generalizing st with
      | nil => simpa [addMany] using hwf
      | cons d ds ih =>
        rw [addMany, List.foldl_cons]
        exact ih ((addSchool d st).1)
          (addSchool_preserves_WF st d hwf (hds d (by simp)))
          (fun x hx => hds x (by simp [hx]))
    exact ⟨key, key.trimmedUnique⟩
  · intro d r n a hr hn ha htn hta h1 h2 h3 h4 h5
    have hex : existsMatch st (jsTrim (strVal d.name)) (jsTrim (strVal d.address)) = true := by
      rw [hn, ha]
      rw [show strVal (.str n) = n from rfl, show strVal (.str a) = a from rfl]
      rw [existsMatch, List.any_eq_true]
      exact ⟨r, hr, by simp [htn, hta]⟩
    simp [validateSchoolData, h1, h2, h3, h4, h5, hex]

/-- C1 amended witness: two trimmed submissions added to the empty store
keep the invariant, and a whitespace-laden resubmission of a stored
school is rejected as a duplicate. -/
theorem C1_amended_witness :
    (StoreWF (addMany [⟨.str "Oak School", .str "1 Main St", .str "10", .str "20"⟩,
        ⟨.str "Elm School", .str "2 Side St", .str "11", .str "21"⟩]
        [⟨"Pine School", "3 Back St", .fin 1, .fin 2⟩]) ∧
      TrimmedUnique (addMany [⟨.str "Oak School", .str "1 Main St", .str "10", .str "20"⟩,
        ⟨.str "Elm School", .str "2 Side St", .str "11", .str "21"⟩]
        [⟨"Pine School", "3 Back St", .fin 1, .fin 2⟩])) ∧
    validateSchoolData ⟨.str " Pine School ", .str " 3 Back St ", .str "50", .str "60"⟩
      (some [⟨"Pine School", "3 Back St", .fin 1, .fin 2⟩]) = .invalid dupMsg := by
  have h := C1_amended [⟨"Pine School", "3 Back St", .fin 1, .fin 2⟩]
    [⟨.str "Oak School", .str "1 Main St", .str "10", .str "20"⟩,
     ⟨.str "Elm School", .str "2 Side St", .str "11", .str "21"⟩]
    (by decide) (by decide)
  refine ⟨h.1, ?_⟩
  exact h.2 ⟨.str " Pine School ", .str " 3 Back St ", .str "50", .str "60"⟩
    ⟨"Pine School", "3 Back St", .fin 1, .fin 2⟩ " Pine School " " 3 Back St "
    (by simp) rfl rfl (by decide) (by decide) (by decide) (by decide) (by decide)
    (by decide) (by decide)

/-- Inserting an entry with the observed key puts it in front of the
other entries with that key: first half of the stability argument. -/
theorem filter_orderedInsert_eq (k : ℝ) (a : Ranked) (l : List Ranked) (hk : a.2 = k) :
    (l.orderedInsert distLE a).filter (fun x => decide (x.2 = k)) =
      a :: l.filter (fun x => decide (x.2 = k)) := by
  induction l with
  | nil => simp [List.orderedInsert, hk]
  | cons b bs ih =>
    rw [List.orderedInsert]
    by_cases h : distLE a b
    · rw [if_pos h]
      simp [List.filter_cons, hk]
    · rw [if_neg h]
      have hb : ¬(b.2 = k) := by
        have hlt : b.2 < a.2 := lt_of_not_le h
        rw [hk] at hlt
        exact ne_of_lt hlt
      simp [List.filter_cons, hb, ih]

/-- Inserting an entry with a different key leaves the entries with the
observed key untouched: second half of the stability argument. -/
theorem filter_orderedInsert_ne (k : ℝ) (a : Ranked) (l : List Ranked) (hk : ¬(a.2 = k)) :
    (l.orderedInsert distLE a).filter (fun x => decide (x.2 = k)) =
      l.filter (fun x => decide (x.2 = k)) := by
  induction l with
  | nil => simp [List.orderedInsert, hk]
  | cons b bs ih =>
    rw [List.orderedInsert]
    by_cases h : distLE a b
    · rw [if_pos h]
      simp [List.filter_cons, hk]
    · rw [if_neg h]
      simp [List.filter_cons, ih]

/-- The insertion sort used to model the stable JavaScript sort keeps
the entries of every fixed key in their original order. -/
theorem filter_insertionSort (k : ℝ) (l : List Ranked) :
    (List.insertionSort distLE l).filter (fun x => decide (x.2 = k)) =
      l.filter (fun x => decide (x.2 = k)) := by
  induction l with
  | nil => rfl
  | cons a as ih =>
    rw [List.insertionSort]
    by_cases hk : a.2 = k
    · rw [filter_orderedInsert_eq k a _ hk, ih, List.filter_cons]
      simp [hk]
    · rw [filter_orderedInsert_ne k a _ hk, ih, List.filter_cons]
      simp [hk]

/-- C2 amended: the ranked output is sorted ascending by the distance
value attached to each record, which is the distance rounded to two
decimal places before the sort runs; it is a permutation of the mapped
input, and entries with equal rounded distance keep their original input
order (stable sort on the rounded key, not on the unrounded one). -/
theorem C2_amended (ulat ulon : ℝ) (schools : List GeoRecord) :
    (rankSchools ulat ulon schools).Sorted distLE ∧
    (rankSchools ulat ulon schools).Perm (withDistance ulat ulon schools) ∧
    ∀ k : ℝ, (rankSchools ulat ulon schools).filter (fun x => decide (x.2 = k)) =
      (withDistance ulat ulon schools).filter (fun x => decide (x.2 = k)) := by
  refine ⟨List.sorted_insertionSort distLE _, List.perm_insertionSort distLE _, ?_⟩
  intro k
  exact filter_insertionSort k _

/-- On the positive x axis atan2 of a sine and cosine pair recovers the
angle, for angles in the first quadrant. -/
theorem jsAtan2_sin_cos {θ : ℝ} (h1 : 0 ≤ θ) (h2 : θ < Real.pi / 2) :
    jsAtan2 (Real.sin θ) (Real.cos θ) = θ := by
  have hc : 0 < Real.cos θ := by
    refine Real.cos_pos_of_mem_Ioo ⟨by linarith [Real.pi_pos], h2⟩
  rw [jsAtan2, if_pos hc]
  rw [show Real.sin θ / Real.cos θ = Real.tan θ from (Real.tan_eq_sin_div_cos θ).symm]
  exact Real.arctan_tan (by linarith [Real.pi_pos]) h2

/-- The distance from the origin to itself evaluates to zero. -/
theorem calculateDistance_origin : calculateDistance 0 0 0 0 = 0 := by
  simp only [calculateDistance, toRadians]
  norm_num [Real.sqrt_one, jsAtan2, Real.arctan_zero]

/-- Evaluation of the haversine along the equator for a small positive
longitude: the distance is the arc length 6371 times the longitude in
radians. -/
theorem calculateDistance_equator (lon : ℝ) (h1 : 0 ≤ lon)
    (h2 : lon * Real.pi / 360 < Real.pi / 2) :
    calculateDistance 0 0 0 lon = 6371 * (2 * (lon * Real.pi / 360)) := by
  have hθ0 : 0 ≤ lon * Real.pi / 360 := by positivity
  have hsin : 0 ≤ Real.sin (lon * Real.pi / 360) := by
    refine Real.sin_nonneg_of_nonneg_of_le_pi hθ0 ?_
    nlinarith [Real.pi_pos]
  have hcos : 0 ≤ Real.cos (lon * Real.pi / 360) :=
    le_of_lt (Real.cos_pos_of_mem_Ioo ⟨by linarith [Real.pi_pos], h2⟩)
  have harg : (lon - 0) * Real.pi / 180 / 2 = lon * Real.pi / 360 := by ring
  have hpy : 1 - Real.sin (lon * Real.pi / 360) * Real.sin (lon * Real.pi / 360) =
      Real.cos (lon * Real.pi / 360) * Real.cos (lon * Real.pi / 360) := by
    have h := Real.sin_sq_add_cos_sq (lon * Real.pi / 360)
    nlinarith [h]
  simp only [calculateDistance, toRadians, harg]
  norm_num
  rw [hpy, Real.sqrt_mul_self hsin, Real.sqrt_mul_self hcos]
  rw [jsAtan2_sin_cos hθ0 h2]

/-- Rounding to two decimals sends any value below half a hundredth to
zero. -/
theorem round2_small {x : ℝ} (h0 : 0 ≤ x) (h : x < 1 / 200) : round2 x = 0 := by
  rw [round2]
  have hz : round (x * 100) = 0 := by
    rw [round_eq_zero_iff, Set.mem_Ico]
    constructor <;> nlinarith
  rw [hz]
  simp

/-- C2 counterexample: with the reference at the origin, a record one
billionth of a degree east (strictly farther than the origin record
listed after it) is ranked first, because the code rounds each distance
to two decimals before sorting and both distances round to zero, where
sorting before rounding would have put the strictly nearer record
first; so the output is not ascending in the unrounded distance. -/
theorem C2_counterexample :
    rankSchools 0 0 [⟨1, "A", "a", 0, 1 / 1000000000⟩, ⟨2, "B", "b", 0, 0⟩] =
      [(⟨1, "A", "a", 0, 1 / 1000000000⟩, 0), (⟨2, "B", "b", 0, 0⟩, 0)] ∧
    calculateDistance 0 0 0 0 < calculateDistance 0 0 0 (1 / 1000000000) := by
  have h2 : (1 / 1000000000 : ℝ) * Real.pi / 360 < Real.pi / 2 := by
    nlinarith [Real.pi_pos]
  have hA : calculateDistance 0 0 0 (1 / 1000000000) =
      6371 * (2 * ((1 / 1000000000 : ℝ) * Real.pi / 360)) :=
    calculateDistance_equator _ (by norm_num) h2
  have hApos : 0 < calculateDistance 0 0 0 (1 / 1000000000) := by
    rw [hA]
    positivity
  have hAsmall : calculateDistance 0 0 0 (1 / 1000000000) < 1 / 200 := by
    rw [hA]
    nlinarith [Real.pi_le_four, Real.pi_pos]
  have hroundA : round2 (calculateDistance 0 0 0 (1 / 1000000000)) = 0 :=
    round2_small (le_of_lt hApos) hAsmall
  have hroundB : round2 (calculateDistance 0 0 0 0) = 0 := by
    rw [calculateDistance_origin]
    exact round2_small le_rfl (by norm_num)
  constructor
  · rw [rankSchools]
    have hwd : withDistance 0 0 [⟨1, "A", "a", 0, 1 / 1000000000⟩, ⟨2, "B", "b", 0, 0⟩] =
        [(⟨1, "A", "a", 0, 1 / 1000000000⟩, 0), (⟨2, "B", "b", 0, 0⟩, 0)] := by
      simp only [withDistance, List.map_cons, List.map_nil]
      rw [hroundA, hroundB]
    rw [hwd]
    rw [List.insertionSort, List.insertionSort, List.insertionSort]
    rw [List.orderedInsert_nil, List.orderedInsert]
    rw [if_pos (show distLE (⟨1, "A", "a", 0, 1 / 1000000000⟩, (0 : ℝ))
      (⟨2, "B", "b", 0, 0⟩, (0 : ℝ)) from le_refl (0 : ℝ))]
  · rw [calculateDistance_origin]
    exact hApos

end SchoolApi

